import Mathlib

/-!
Verification development for the research-pipeline orchestrator implemented in
`src/main/app.py`.  The pipeline turns a query into a search plan, executes the
searches, synthesizes a report and finally emails it.  All calls to the external
reasoning capability (`Runner.run` on the planner, search, writer and email
agents) and the presence of the delivery credential are modelled by an explicit
environment record `Env`; every pipeline function is then a pure function of
that environment, translated clause by clause from the Python source.
-/

set_option autoImplicit false

namespace DeepResearch

/-- Data model of `WebSearchItem` (app.py lines 91-93): one planned search. -/
structure WebSearchItem where
  reason : String
  query : String
deriving Repr, DecidableEq

/-- Data model of `WebSearchPlan` (app.py lines 95-96).  Note the pydantic
model constrains only the shape (a list of items), not the list's length. -/
structure WebSearchPlan where
  searches : List WebSearchItem
deriving Repr, DecidableEq

/-- Data model of `ReportData` (app.py lines 148-151). -/
structure ReportData where
  short_summary : String
  markdown_report : String
  follow_up_questions : List String
deriving Repr, DecidableEq

/-- The constant `NUM_SEARCHES` (app.py line 85): the number of searches the
planner instructions ask for. -/
def NUM_SEARCHES : Nat := 5

/-- Environment of external effects.  Each field gives the outcome of one kind
of external call made by the source: `Except String` models a Python call that
either returns a value or raises an exception carrying `str(e)`.
`executorCrash` models a runtime fault that makes the body of
`perform_searches` raise as a whole (the re-raise at app.py lines 193-195),
as opposed to an individual search failing. -/
structure Env where
  /-- Outcome of `Runner.run(planner_agent, ...)` inside `plan_searches`. -/
  plannerResult : Except String WebSearchPlan
  /-- Outcome of `Runner.run(search_agent, ...)` inside `search`, per item. -/
  searchResult : WebSearchItem → Except String String
  /-- Outcome of `Runner.run(writer_agent, ...)` inside `write_report`, as a
  function of the original query and the search-result strings. -/
  writerResult : String → List String → Except String ReportData
  /-- Outcome of `Runner.run(custom_agent, ...)` inside `email_report`. -/
  emailResult : ReportData → String → Except String Unit
  /-- The value of `os.environ.get("SENDGRID_API_KEY")`. -/
  sendgridKey : Option String
  /-- A stage-level runtime fault in `perform_searches` (none in normal runs). -/
  executorCrash : Option String

/-- The ASCII single-quote character used by the f-strings of the source. -/
def squote : String := String.singleton (Char.ofNat 39)

/-- Translation of `search` (app.py lines 197-205): run the search agent for
one item; on success return its final output, on any exception return the
failure placeholder string that embeds the item's query text.  The function is
total: every exception is caught. -/
def search (env : Env) (item : WebSearchItem) : String :=
  match env.searchResult item with
  | .ok summary => summary
  | .error _ =>
      "Search failed for " ++ squote ++ item.query ++ squote
        ++ ": Unable to retrieve results"

/-- The loop body of `perform_searches` (app.py lines 179-189): for each item,
append the result of `search` and then await `asyncio.sleep(1)`.  Returns the
outcome strings in plan order together with the number of pacing sleeps
executed.  The sleep is executed on every iteration, the last one included. -/
def performLoop (env : Env) : List WebSearchItem → List String × Nat
  | [] => ([], 0)
  | item :: rest =>
    let outcome := search env item
    let tail := performLoop env rest
    (outcome :: tail.1, tail.2 + 1)

/-- Translation of `perform_searches` (app.py lines 172-195).  The outer
try/except re-raises any stage-level fault (modelled by `env.executorCrash`);
otherwise the loop produces one string per plan item. -/
def perform_searches (env : Env) (search_plan : WebSearchPlan) :
    Except String (List String) :=
  match env.executorCrash with
  | some e => .error e
  | none => .ok (performLoop env search_plan.searches).1

/-- The number of pacing sleeps `perform_searches` executes on a normal run. -/
def perform_searches_sleeps (env : Env) (search_plan : WebSearchPlan) : Nat :=
  (performLoop env search_plan.searches).2

theorem performLoop_eq (env : Env) (items : List WebSearchItem) :
    performLoop env items = (items.map (search env), items.length) := by
  induction items with
  | nil => rfl
  | cons item rest ih => simp [performLoop, ih]

/-- Translation of `plan_searches` (app.py lines 161-170): return the planner
agent's final output unchanged, re-raising any exception. -/
def plan_searches (env : Env) : Except String WebSearchPlan :=
  env.plannerResult

/-- Translation of `write_report` (app.py lines 207-217): return the writer
agent's final output, re-raising any exception. -/
def write_report (env : Env) (query : String) (search_results : List String) :
    Except String ReportData :=
  env.writerResult query search_results

/-- Translation of `email_report` (app.py lines 252-280): run the custom email
agent; on success return the report unchanged, re-raising any exception. -/
def email_report (env : Env) (report : ReportData) (email_address : String) :
    Except String ReportData :=
  match env.emailResult report email_address with
  | .ok _ => .ok report
  | .error e => .error e

/-- Python's `str.startswith`, on explicit character lists. -/
def listStarts : List Char → List Char → Bool
  | [], _ => true
  | _ :: _, [] => false
  | p :: ps, c :: cs => p == c && listStarts ps cs

/-- Whether `s` starts with `pat` (Python `s.startswith(pat)`). -/
def strStarts (s pat : String) : Bool :=
  listStarts pat.toList s.toList

/-- Translation of the success tally at app.py line 418:
`sum(1 for result in search_results if not result.startswith("Search failed"))`. -/
def successful_searches (search_results : List String) : Nat :=
  search_results.foldl
    (fun acc r => if strStarts r "Search failed" then acc else acc + 1) 0

/-- The pipeline stages whose progress placeholder is set to running
(app.py lines 391, 409, 427, 438), in the order they are entered. -/
inductive Stage
  | planning
  | searching
  | writing
  | emailing
deriving Repr, DecidableEq

/-- The delivery outcome shown by the emailing step of `main`
(app.py lines 441-461): sent, skipped for a missing credential, or failed. -/
inductive DeliveryStatus
  | sent (recipient : String)
  | skipped
  | failed (reason : String)
deriving Repr, DecidableEq

/-- Terminal result of one submission handled by `main`: rejected by input
validation, aborted at planning, aborted at report writing, or done with a
report and a delivery status. -/
inductive RunResult
  | rejected (message : String)
  | abortedPlanning (message : String)
  | abortedWriting (message : String)
  | done (report : ReportData) (delivery : DeliveryStatus)
deriving Repr, DecidableEq

/-- Observable outcome of one submission: the terminal result, the stages
entered, whether `email_report` was invoked, and the success count shown at
app.py line 419 (none when the search stage raised and the count was skipped). -/
structure RunState where
  result : RunResult
  stages : List Stage
  email_attempted : Bool
  reported_successes : Option Nat
deriving Repr, DecidableEq

/-- The search-result list the writer receives (app.py lines 412-424): the
executor's outcomes on success, or the single placeholder string when
`perform_searches` itself raised. -/
def searchStageResults (env : Env) (plan : WebSearchPlan) : List String :=
  match perform_searches env plan with
  | .ok rs => rs
  | .error e => ["Limited search results due to connection issues: " ++ e]

/-- Translation of the submission handler in `main` (app.py lines 359-477).
The three validation checks mirror lines 360-371: Python `not query.strip()`
holds exactly when the query is all whitespace, and `"@" in email` for a
one-character pattern is character membership.  Each rejected or aborted
branch corresponds to a `return` in the source; the search stage failure is
caught and replaced by a one-element placeholder list (lines 421-424); the
emailing step never aborts the run (lines 441-461). -/
def main (env : Env) (query email : String) : RunState :=
  if query.toList.all Char.isWhitespace then
    ⟨.rejected "Please enter a research query.", [], false, none⟩
  else if email.toList.all Char.isWhitespace then
    ⟨.rejected "Please enter your email address.", [], false, none⟩
  else if !(email.toList.contains '@') || !(email.toList.contains '.') then
    ⟨.rejected "Please enter a valid email address.", [], false, none⟩
  else
    match plan_searches env with
    | .error e =>
        ⟨.abortedPlanning ("Planning failed: " ++ e), [.planning], false, none⟩
    | .ok plan =>
      let search_results := searchStageResults env plan
      let reported : Option Nat :=
        match perform_searches env plan with
        | .ok rs => some (successful_searches rs)
        | .error _ => none
      match write_report env query search_results with
      | .error e =>
          ⟨.abortedWriting ("Report generation failed: " ++ e),
            [.planning, .searching, .writing], false, reported⟩
      | .ok report =>
        match env.sendgridKey with
        | none =>
            ⟨.done report .skipped,
              [.planning, .searching, .writing, .emailing], false, reported⟩
        | some _ =>
          match email_report env report email with
          | .ok _ =>
              ⟨.done report (.sent email),
                [.planning, .searching, .writing, .emailing], true, reported⟩
          | .error e =>
              ⟨.done report (.failed ("Email sending failed: " ++ e)),
                [.planning, .searching, .writing, .emailing], true, reported⟩

/-- The success count computed on the search stage's outcome (or skipped when
the stage raised), as recorded by `main`. -/
def reportedOf (env : Env) (plan : WebSearchPlan) : Option Nat :=
  match perform_searches env plan with
  | .ok rs => some (successful_searches rs)
  | .error _ => none

/-- The delivery status and whether `email_report` was invoked, as decided by
the emailing step (app.py lines 441-461). -/
def deliveryOutcome (env : Env) (report : ReportData) (em : String) :
    DeliveryStatus × Bool :=
  match env.sendgridKey with
  | none => (.skipped, false)
  | some _ =>
    match email_report env report em with
    | .ok _ => (.sent em, true)
    | .error e => (.failed ("Email sending failed: " ++ e), true)

/-! Concrete fixtures used for witnesses and counterexamples. -/

def itemSolo : WebSearchItem := ⟨"background", "solo query"⟩

def itemSecond : WebSearchItem := ⟨"depth", "second query"⟩

def planSolo : WebSearchPlan := ⟨[itemSolo]⟩

def planPair : WebSearchPlan := ⟨[itemSolo, itemSecond]⟩

def planTriple : WebSearchPlan :=
  ⟨[⟨"angle one", "first"⟩, ⟨"angle two", "second"⟩, ⟨"angle three", "third"⟩]⟩

def reportA : ReportData := ⟨"summary", "body", []⟩

/-- A baseline environment: empty plan, every search call fails, writer and
email calls fail, no delivery credential, no stage-level fault. -/
def envBase : Env :=
  { plannerResult := .ok ⟨[]⟩
    searchResult := fun _ => .error "timeout"
    writerResult := fun _ _ => .error "unavailable"
    emailResult := fun _ _ => .error "unavailable"
    sendgridKey := none
    executorCrash := none }

def envPlanErr : Env := { envBase with plannerResult := .error "boom" }

def envHappyNoKey : Env :=
  { envBase with
    plannerResult := .ok planSolo
    writerResult := fun _ _ => .ok reportA }

def envEmailFail : Env := { envHappyNoKey with sendgridKey := some "SG.key" }

def envCrash : Env := { envHappyNoKey with executorCrash := some "loop closed" }

def envPlan3 : Env := { envBase with plannerResult := .ok planTriple }

def envPrefixTrap : Env :=
  { envHappyNoKey with
    searchResult := fun _ => .ok "Search failed narratives in journalism, a survey" }

theorem valid_q : ("q".toList.all Char.isWhitespace) = false := by decide

theorem valid_em_ws : ("a@b.c".toList.all Char.isWhitespace) = false := by decide

theorem valid_em_at : ("a@b.c".toList.contains '@') = true := by decide

theorem valid_em_dot : ("a@b.c".toList.contains '.') = true := by decide

/-! Branch lemmas for `main`, the workhorses of the claim proofs. -/

theorem main_planner_error (env : Env) (q em e : String)
    (hq : q.toList.all Char.isWhitespace = false)
    (hm : em.toList.all Char.isWhitespace = false)
    (ha : em.toList.contains '@' = true)
    (hd : em.toList.contains '.' = true)
    (hp : env.plannerResult = .error e) :
    main env q em
      = ⟨.abortedPlanning ("Planning failed: " ++ e), [.planning], false, none⟩ := by
  have h1 : ¬(q.toList.all Char.isWhitespace = true) := by simpa using hq
  have h2 : ¬(em.toList.all Char.isWhitespace = true) := by simpa using hm
  have h3 : ¬((!(em.toList.contains '@') || !(em.toList.contains '.')) = true) := by
    have hA : '@' ∈ em.data := by simpa using ha
    have hD : '.' ∈ em.data := by simpa using hd
    simp [hA, hD]
  simp only [main, if_neg h1, if_neg h2, if_neg h3, plan_searches, hp]

theorem main_writer_error (env : Env) (q em e : String) (plan : WebSearchPlan)
    (hq : q.toList.all Char.isWhitespace = false)
    (hm : em.toList.all Char.isWhitespace = false)
    (ha : em.toList.contains '@' = true)
    (hd : em.toList.contains '.' = true)
    (hp : env.plannerResult = .ok plan)
    (hw : env.writerResult q (searchStageResults env plan) = .error e) :
    main env q em
      = ⟨.abortedWriting ("Report generation failed: " ++ e),
          [.planning, .searching, .writing], false, reportedOf env plan⟩ := by
  have h1 : ¬(q.toList.all Char.isWhitespace = true) := by simpa using hq
  have h2 : ¬(em.toList.all Char.isWhitespace = true) := by simpa using hm
  have h3 : ¬((!(em.toList.contains '@') || !(em.toList.contains '.')) = true) := by
    have hA : '@' ∈ em.data := by simpa using ha
    have hD : '.' ∈ em.data := by simpa using hd
    simp [hA, hD]
  simp only [main, if_neg h1, if_neg h2, if_neg h3, plan_searches, hp,
    write_report, hw, reportedOf]

theorem main_writer_ok (env : Env) (q em : String) (plan : WebSearchPlan)
    (report : ReportData)
    (hq : q.toList.all Char.isWhitespace = false)
    (hm : em.toList.all Char.isWhitespace = false)
    (ha : em.toList.contains '@' = true)
    (hd : em.toList.contains '.' = true)
    (hp : env.plannerResult = .ok plan)
    (hw : env.writerResult q (searchStageResults env plan) = .ok report) :
    main env q em
      = ⟨.done report (deliveryOutcome env report em).1,
          [.planning, .searching, .writing, .emailing],
          (deliveryOutcome env report em).2, reportedOf env plan⟩ := by
  have h1 : ¬(q.toList.all Char.isWhitespace = true) := by simpa using hq
  have h2 : ¬(em.toList.all Char.isWhitespace = true) := by simpa using hm
  have h3 : ¬((!(em.toList.contains '@') || !(em.toList.contains '.')) = true) := by
    have hA : '@' ∈ em.data := by simpa using ha
    have hD : '.' ∈ em.data := by simpa using hd
    simp [hA, hD]
  cases hk : env.sendgridKey with
  | none =>
      simp only [main, if_neg h1, if_neg h2, if_neg h3, plan_searches, hp,
        write_report, hw, hk, deliveryOutcome, reportedOf]
  | some key =>
      cases he : env.emailResult report em with
      | ok u =>
          simp only [main, if_neg h1, if_neg h2, if_neg h3, plan_searches, hp,
            write_report, hw, hk, email_report, he, deliveryOutcome, reportedOf]
      | error ee =>
          simp only [main, if_neg h1, if_neg h2, if_neg h3, plan_searches, hp,
            write_report, hw, hk, email_report, he, deliveryOutcome, reportedOf]

theorem reportedOf_of_no_crash (env : Env) (plan : WebSearchPlan)
    (hc : env.executorCrash = none) :
    reportedOf env plan
      = some (successful_searches (searchStageResults env plan)) := by
  simp [reportedOf, perform_searches, hc, searchStageResults]

theorem successful_searches_eq_countP (rs : List String) :
    successful_searches rs
      = rs.countP (fun r => !(strStarts r "Search failed")) := by
  have aux : ∀ (l : List String) (acc : Nat),
      l.foldl (fun a r => if strStarts r "Search failed" then a else a + 1) acc
        = acc + l.countP (fun r => !(strStarts r "Search failed")) := by
    intro l
    induction l with
    | nil => intro acc; simp
    | cons r rest ih =>
        intro acc
        cases hr : strStarts r "Search failed" with
        | true => simp [List.countP_cons, hr, ih]
        | false =>
            simp only [List.foldl_cons, hr, if_neg Bool.false_ne_true,
              List.countP_cons, ih]
            simp [hr]
            omega
  simpa [successful_searches] using aux rs 0

theorem main_rejected_query (env : Env) (q em : String)
    (h : q.toList.all Char.isWhitespace = true) :
    main env q em
      = ⟨.rejected "Please enter a research query.", [], false, none⟩ := by
  simp only [main, if_pos h]

theorem main_rejected_email_empty (env : Env) (q em : String)
    (hq : q.toList.all Char.isWhitespace = false)
    (h : em.toList.all Char.isWhitespace = true) :
    main env q em
      = ⟨.rejected "Please enter your email address.", [], false, none⟩ := by
  have h1 : ¬(q.toList.all Char.isWhitespace = true) := by simpa using hq
  simp only [main, if_neg h1, if_pos h]

theorem main_rejected_email_invalid (env : Env) (q em : String)
    (hq : q.toList.all Char.isWhitespace = false)
    (hm : em.toList.all Char.isWhitespace = false)
    (h : (!(em.toList.contains '@') || !(em.toList.contains '.')) = true) :
    main env q em
      = ⟨.rejected "Please enter a valid email address.", [], false, none⟩ := by
  have h1 : ¬(q.toList.all Char.isWhitespace = true) := by simpa using hq
  have h2 : ¬(em.toList.all Char.isWhitespace = true) := by simpa using hm
  simp only [main, if_neg h1, if_neg h2, if_pos h]

/-! The frozen claims. -/

/-- C1: for every search plan the executor returns exactly one outcome string
per directive, in plan order — the output length equals the plan length for
any number of directives, including when every directive's search fails. -/
theorem c1_executor_one_outcome_per_directive (env : Env) (plan : WebSearchPlan)
    (hc : env.executorCrash = none) :
    perform_searches env plan = .ok (plan.searches.map (search env))
      ∧ (plan.searches.map (search env)).length = plan.searches.length
      ∧ ∀ i : Nat, (plan.searches.map (search env))[i]?
          = (plan.searches[i]?).map (search env) := by
  refine ⟨?_, by simp, fun i => by simp⟩
  simp [perform_searches, hc, performLoop_eq]

/-- Witness for C1 at a two-directive plan in which every search fails. -/
theorem c1_witness :
    perform_searches envBase planPair
        = .ok (planPair.searches.map (search envBase))
      ∧ (planPair.searches.map (search envBase)).length
          = planPair.searches.length :=
  ⟨(c1_executor_one_outcome_per_directive envBase planPair rfl).1,
   (c1_executor_one_outcome_per_directive envBase planPair rfl).2.1⟩

/-- C3: a capability error during one directive's search is converted into the
failure string that embeds that directive's query text, at that directive's
position, while the batch still completes with one outcome per directive and
no exception is propagated. -/
theorem c3_search_failure_isolated (env : Env) (plan : WebSearchPlan)
    (i : Nat) (item : WebSearchItem) (e : String)
    (hi : plan.searches[i]? = some item)
    (he : env.searchResult item = .error e)
    (hc : env.executorCrash = none) :
    perform_searches env plan = .ok (plan.searches.map (search env))
      ∧ (plan.searches.map (search env)).length = plan.searches.length
      ∧ (plan.searches.map (search env))[i]?
          = some ("Search failed for " ++ squote ++ item.query ++ squote
              ++ ": Unable to retrieve results") := by
  refine ⟨by simp [perform_searches, hc, performLoop_eq], by simp, ?_⟩
  simp [hi, search, he]

/-- Witness for C3: a one-directive plan whose single search fails. -/
theorem c3_witness :
    perform_searches envBase planSolo
        = .ok (planSolo.searches.map (search envBase))
      ∧ (planSolo.searches.map (search envBase)).length
          = planSolo.searches.length
      ∧ (planSolo.searches.map (search envBase))[0]?
          = some ("Search failed for " ++ squote ++ itemSolo.query ++ squote
              ++ ": Unable to retrieve results") :=
  c3_search_failure_isolated envBase planSolo 0 itemSolo "timeout" rfl rfl rfl

/-- C7 counterexample: with a single-directive plan, a delay skipped after the
final directive would mean zero sleeps, but the executor sleeps once — the
pacing sleep runs after every directive, the final one included. -/
theorem c7_counterexample_sleep_after_final :
    ¬(perform_searches_sleeps envBase planSolo
        = planSolo.searches.length - 1) := by
  decide

/-- C7 amended: a fixed pacing delay of one time unit is executed after every
directive, including the final one, so a plan of N directives incurs exactly
N delays (not N - 1). -/
theorem c7_sleep_count (env : Env) (plan : WebSearchPlan) :
    perform_searches_sleeps env plan = plan.searches.length := by
  simp [perform_searches_sleeps, performLoop_eq]

/-- C6 counterexample: the planner's output is not validated against
`NUM_SEARCHES` — a successful planning call can return a plan of three
directives, which is accepted although `NUM_SEARCHES` is five. -/
theorem c6_counterexample_plan_length_unchecked :
    plan_searches envPlan3 = .ok planTriple
      ∧ planTriple.searches.length ≠ NUM_SEARCHES :=
  ⟨rfl, by decide⟩

/-- C6 amended: planning is all-or-nothing — a failure is propagated unchanged
and a success returns the capability's complete plan unchanged — but the
returned plan's length is not validated against `NUM_SEARCHES`, and a plan of
any length flows on into the searching stage. -/
theorem c6_planning_all_or_nothing (env : Env) :
    (∀ e, env.plannerResult = .error e → plan_searches env = .error e)
      ∧ (∀ plan, env.plannerResult = .ok plan → plan_searches env = .ok plan)
      ∧ (∀ plan, env.plannerResult = .ok plan →
          Stage.searching ∈ (main env "q" "a@b.c").stages) := by
  refine ⟨fun e he => by simp [plan_searches, he],
    fun plan hp => by simp [plan_searches, hp], fun plan hp => ?_⟩
  cases hw : env.writerResult "q" (searchStageResults env plan) with
  | error e =>
      rw [main_writer_error env "q" "a@b.c" e plan valid_q valid_em_ws
        valid_em_at valid_em_dot hp hw]
      simp
  | ok report =>
      rw [main_writer_ok env "q" "a@b.c" plan report valid_q valid_em_ws
        valid_em_at valid_em_dot hp hw]
      simp

/-- Witness for the amended C6: the three-directive plan is returned whole and
the run proceeds into the searching stage. -/
theorem c6_witness :
    plan_searches envPlan3 = .ok planTriple
      ∧ Stage.searching ∈ (main envPlan3 "q" "a@b.c").stages :=
  ⟨(c6_planning_all_or_nothing envPlan3).2.1 planTriple rfl,
   (c6_planning_all_or_nothing envPlan3).2.2 planTriple rfl⟩

/-- C2: a planner failure aborts the run with the planner's error surfaced and
only the planning stage entered; a writer failure aborts the run with the
writer's error surfaced; in both cases no report is produced. -/
theorem c2_fatal_failures_abort (env : Env) (q em e : String)
    (hq : q.toList.all Char.isWhitespace = false)
    (hm : em.toList.all Char.isWhitespace = false)
    (ha : em.toList.contains '@' = true)
    (hd : em.toList.contains '.' = true) :
    (env.plannerResult = .error e →
        (main env q em).result = .abortedPlanning ("Planning failed: " ++ e)
          ∧ (main env q em).stages = [Stage.planning]
          ∧ ∀ (r : ReportData) (d : DeliveryStatus),
              (main env q em).result ≠ .done r d)
      ∧ (∀ plan : WebSearchPlan, env.plannerResult = .ok plan →
          env.writerResult q (searchStageResults env plan) = .error e →
          (main env q em).result
              = .abortedWriting ("Report generation failed: " ++ e)
            ∧ ∀ (r : ReportData) (d : DeliveryStatus),
                (main env q em).result ≠ .done r d) := by
  constructor
  · intro hp
    rw [main_planner_error env q em e hq hm ha hd hp]
    exact ⟨rfl, rfl, fun r d => by simp⟩
  · intro plan hp hw
    rw [main_writer_error env q em e plan hq hm ha hd hp hw]
    exact ⟨rfl, fun r d => by simp⟩

/-- Witness for C2: a planner failure on concrete inputs. -/
theorem c2_witness :
    (main envPlanErr "q" "a@b.c").result
        = RunResult.abortedPlanning "Planning failed: boom"
      ∧ (main envPlanErr "q" "a@b.c").stages = [Stage.planning] := by
  have h := (c2_fatal_failures_abort envPlanErr "q" "a@b.c" "boom" valid_q
    valid_em_ws valid_em_at valid_em_dot).1 rfl
  exact ⟨h.1, h.2.1⟩

/-- C4: with no delivery credential configured the run completes with exactly
the skipped delivery status, the writer's report attached unchanged, and
without invoking the email agent. -/
theorem c4_missing_credential_skips (env : Env) (q em : String)
    (plan : WebSearchPlan) (report : ReportData)
    (hq : q.toList.all Char.isWhitespace = false)
    (hm : em.toList.all Char.isWhitespace = false)
    (ha : em.toList.contains '@' = true)
    (hd : em.toList.contains '.' = true)
    (hk : env.sendgridKey = none)
    (hp : env.plannerResult = .ok plan)
    (hw : env.writerResult q (searchStageResults env plan) = .ok report) :
    (main env q em).result = .done report .skipped
      ∧ (main env q em).email_attempted = false := by
  rw [main_writer_ok env q em plan report hq hm ha hd hp hw]
  simp [deliveryOutcome, hk]

/-- Witness for C4: a run with no credential configured. -/
theorem c4_witness :
    (main envHappyNoKey "q" "a@b.c").result
        = RunResult.done reportA DeliveryStatus.skipped
      ∧ (main envHappyNoKey "q" "a@b.c").email_attempted = false :=
  c4_missing_credential_skips envHappyNoKey "q" "a@b.c" planSolo reportA
    valid_q valid_em_ws valid_em_at valid_em_dot rfl rfl rfl

/-- C5: once the writer has produced a report the run always reaches the done
state with that report attached and some delivery status — the emailing stage
is entered and no delivery outcome (sent, skipped or failed) aborts the run. -/
theorem c5_delivery_never_aborts (env : Env) (q em : String)
    (plan : WebSearchPlan) (report : ReportData)
    (hq : q.toList.all Char.isWhitespace = false)
    (hm : em.toList.all Char.isWhitespace = false)
    (ha : em.toList.contains '@' = true)
    (hd : em.toList.contains '.' = true)
    (hp : env.plannerResult = .ok plan)
    (hw : env.writerResult q (searchStageResults env plan) = .ok report) :
    ∃ d, (main env q em).result = .done report d
      ∧ (main env q em).stages
          = [Stage.planning, Stage.searching, Stage.writing, Stage.emailing] := by
  rw [main_writer_ok env q em plan report hq hm ha hd hp hw]
  exact ⟨(deliveryOutcome env report em).1, rfl, rfl⟩

/-- Witness for C5: the email call fails yet the run reaches the final stage
list with the report intact. -/
theorem c5_witness :
    (main envEmailFail "q" "a@b.c").stages
      = [Stage.planning, Stage.searching, Stage.writing, Stage.emailing] := by
  obtain ⟨d, hres, hst⟩ := c5_delivery_never_aborts envEmailFail "q" "a@b.c"
    planSolo reportA valid_q valid_em_ws valid_em_at valid_em_dot rfl rfl
  exact hst

/-- C8: the planning stage is entered only when the query and recipient are
non-empty and the recipient contains both the at-sign and a dot; any
submission failing these checks is rejected with no pipeline stage run. -/
theorem c8_validation_gates_planning (env : Env) (q em : String) :
    (Stage.planning ∈ (main env q em).stages →
        q ≠ "" ∧ em ≠ "" ∧ em.toList.contains '@' = true
          ∧ em.toList.contains '.' = true)
      ∧ (¬(q ≠ "" ∧ em ≠ "" ∧ em.toList.contains '@' = true
            ∧ em.toList.contains '.' = true) →
          (main env q em).stages = []
            ∧ ∃ m, (main env q em).result = .rejected m) := by
  cases h1 : q.toList.all Char.isWhitespace with
  | true =>
      constructor
      · intro hmem
        rw [main_rejected_query env q em h1] at hmem
        simp at hmem
      · intro _
        rw [main_rejected_query env q em h1]
        exact ⟨rfl, "Please enter a research query.", rfl⟩
  | false =>
      cases h2 : em.toList.all Char.isWhitespace with
      | true =>
          constructor
          · intro hmem
            rw [main_rejected_email_empty env q em h1 h2] at hmem
            simp at hmem
          · intro _
            rw [main_rejected_email_empty env q em h1 h2]
            exact ⟨rfl, "Please enter your email address.", rfl⟩
      | false =>
          cases hA : em.toList.contains '@' with
          | false =>
              have h3 : (!(em.toList.contains '@')
                  || !(em.toList.contains '.')) = true := by
                simp only [Bool.or_eq_true, Bool.not_eq_true']
                exact Or.inl hA
              constructor
              · intro hmem
                rw [main_rejected_email_invalid env q em h1 h2 h3] at hmem
                simp at hmem
              · intro _
                rw [main_rejected_email_invalid env q em h1 h2 h3]
                exact ⟨rfl, "Please enter a valid email address.", rfl⟩
          | true =>
              cases hD : em.toList.contains '.' with
              | false =>
                  have h3 : (!(em.toList.contains '@')
                      || !(em.toList.contains '.')) = true := by
                    simp only [Bool.or_eq_true, Bool.not_eq_true']
                    exact Or.inr hD
                  constructor
                  · intro hmem
                    rw [main_rejected_email_invalid env q em h1 h2 h3] at hmem
                    simp at hmem
                  · intro _
                    rw [main_rejected_email_invalid env q em h1 h2 h3]
                    exact ⟨rfl, "Please enter a valid email address.", rfl⟩
              | true =>
                  have hq' : q ≠ "" := by
                    intro hqe
                    subst hqe
                    exact absurd h1 (by decide)
                  have hm' : em ≠ "" := by
                    intro hme
                    subst hme
                    exact absurd h2 (by decide)
                  constructor
                  · intro _
                    exact ⟨hq', hm', rfl, rfl⟩
                  · intro hn
                    exact absurd ⟨hq', hm', rfl, rfl⟩ hn

/-- Witness for C8: the scenario-D submission (recipient with no at-sign) is
rejected with no stage run. -/
theorem c8_witness : (main envBase "q" "not-an-email").stages = [] :=
  ((c8_validation_gates_planning envBase "q" "not-an-email").2 (by decide)).1

/-- C9: when the search stage itself raises, the orchestrator replaces the
whole outcome sequence by a single placeholder string — a list of length one
regardless of the plan length — and proceeds to the writing stage with that
list instead of aborting. -/
theorem c9_stage_crash_degrades_to_placeholder (env : Env) (q em e : String)
    (plan : WebSearchPlan)
    (hq : q.toList.all Char.isWhitespace = false)
    (hm : em.toList.all Char.isWhitespace = false)
    (ha : em.toList.contains '@' = true)
    (hd : em.toList.contains '.' = true)
    (hp : env.plannerResult = .ok plan)
    (hc : env.executorCrash = some e) :
    searchStageResults env plan
        = ["Limited search results due to connection issues: " ++ e]
      ∧ (searchStageResults env plan).length = 1
      ∧ Stage.writing ∈ (main env q em).stages
      ∧ ∀ r : ReportData,
          env.writerResult q
              ["Limited search results due to connection issues: " ++ e]
            = .ok r →
          (main env q em).result = .done r (deliveryOutcome env r em).1 := by
  have hss : searchStageResults env plan
      = ["Limited search results due to connection issues: " ++ e] := by
    simp [searchStageResults, perform_searches, hc]
  refine ⟨hss, by simp [hss], ?_, ?_⟩
  · cases hw : env.writerResult q (searchStageResults env plan) with
    | error e2 =>
        rw [main_writer_error env q em e2 plan hq hm ha hd hp hw]
        simp
    | ok r =>
        rw [main_writer_ok env q em plan r hq hm ha hd hp hw]
        simp
  · intro r hr
    have hw : env.writerResult q (searchStageResults env plan) = .ok r := by
      rw [hss]
      exact hr
    rw [main_writer_ok env q em plan r hq hm ha hd hp hw]

/-- Witness for C9: a concrete stage-level fault. -/
theorem c9_witness :
    searchStageResults envCrash planSolo
        = ["Limited search results due to connection issues: loop closed"]
      ∧ Stage.writing ∈ (main envCrash "q" "a@b.c").stages := by
  have h := c9_stage_crash_degrades_to_placeholder envCrash "q" "a@b.c"
    "loop closed" planSolo valid_q valid_em_ws valid_em_at valid_em_dot rfl rfl
  exact ⟨h.1, h.2.2.1⟩

/-- C10: the success count reported to the caller is computed purely by a
string test — it equals the number of outcome strings that do not start with
"Search failed" — so a genuinely successful summary whose text begins with
"Search failed" is counted as a failure. -/
theorem c10_success_count_is_string_test (env : Env) (q em : String)
    (plan : WebSearchPlan)
    (hq : q.toList.all Char.isWhitespace = false)
    (hm : em.toList.all Char.isWhitespace = false)
    (ha : em.toList.contains '@' = true)
    (hd : em.toList.contains '.' = true)
    (hp : env.plannerResult = .ok plan)
    (hc : env.executorCrash = none) :
    (main env q em).reported_successes
        = some ((searchStageResults env plan).countP
            (fun r => !(strStarts r "Search failed")))
      ∧ ∃ (env2 : Env) (item : WebSearchItem) (s : String),
          env2.searchResult item = .ok s
            ∧ strStarts s "Search failed" = true
            ∧ successful_searches (searchStageResults env2 ⟨[item]⟩) = 0 := by
  constructor
  · have hrep : (main env q em).reported_successes = reportedOf env plan := by
      cases hw : env.writerResult q (searchStageResults env plan) with
      | error e => rw [main_writer_error env q em e plan hq hm ha hd hp hw]
      | ok r => rw [main_writer_ok env q em plan r hq hm ha hd hp hw]
    rw [hrep, reportedOf_of_no_crash env plan hc, successful_searches_eq_countP]
  · exact ⟨envPrefixTrap, itemSolo,
      "Search failed narratives in journalism, a survey", rfl, by decide,
      by decide⟩

/-- Witness for C10: a run whose single search succeeds with a summary that
begins with "Search failed" reports zero successful searches. -/
theorem c10_witness :
    (main envPrefixTrap "q" "a@b.c").reported_successes = some 0 := by
  have h := (c10_success_count_is_string_test envPrefixTrap "q" "a@b.c"
    planSolo valid_q valid_em_ws valid_em_at valid_em_dot rfl rfl).1
  rw [h]
  decide

end DeepResearch
